import Mathlib

/-!
# Verification of the delivery-zone resolution engine

Shallow embedding of the delivery-zone matching and nearby-product distance
logic of the marketplace backend (`src/routes/stores.js` validate-delivery
handler and `calculateDistance`, `src/routes/products.js` GET /nearby
distance annotation).

Numbers are modelled as real numbers; JavaScript field absence is modelled
with `Option`; a thrown `TypeError` on the matching path is modelled as
`Except.error ()` (the route-level `catch` turns any such error into a 500
response, so all errors are observationally identical).
-/

open Real

namespace Amify

/-- JavaScript `Math.atan2(y, x)` on real inputs (no NaN / signed zero). -/
noncomputable def atan2 (y x : ℝ) : ℝ :=
  if 0 < x then Real.arctan (y / x)
  else if x < 0 then
    (if 0 ≤ y then Real.arctan (y / x) + Real.pi else Real.arctan (y / x) - Real.pi)
  else if 0 < y then Real.pi / 2
  else if y < 0 then -(Real.pi / 2)
  else 0

/-- The intermediate value `a` of `calculateDistance` (the source's local
`a`, with the locals `dLat`/`dLon` inlined):
`sin(dLat/2)·sin(dLat/2) + cos(lat1·π/180)·cos(lat2·π/180)·sin(dLon/2)·sin(dLon/2)`. -/
noncomputable def hav (lat1 lon1 lat2 lon2 : ℝ) : ℝ :=
  Real.sin ((lat2 - lat1) * Real.pi / 180 / 2) * Real.sin ((lat2 - lat1) * Real.pi / 180 / 2) +
    Real.cos (lat1 * Real.pi / 180) * Real.cos (lat2 * Real.pi / 180) *
      Real.sin ((lon2 - lon1) * Real.pi / 180 / 2) *
      Real.sin ((lon2 - lon1) * Real.pi / 180 / 2)

/-- `calculateDistance(lat1, lon1, lat2, lon2)` from `src/routes/stores.js`
(the identical copy appears in `src/routes/products.js`): Haversine distance
in kilometres with Earth radius `R = 6371`; `R * c` with
`c = 2 * atan2(sqrt a, sqrt (1 - a))`. -/
noncomputable def calculateDistance (lat1 lon1 lat2 lon2 : ℝ) : ℝ :=
  6371 * (2 * atan2 (Real.sqrt (hav lat1 lon1 lat2 lon2))
    (Real.sqrt (1 - hav lat1 lon1 lat2 lon2)))

/-- JavaScript `Math.round(x * 100) / 100` for the non-negative values this
code rounds (`Math.round` rounds half toward positive infinity). -/
noncomputable def round2 (x : ℝ) : ℝ := (⌊x * 100 + 1 / 2⌋ : ℤ) / 100

lemma atan2_zero_one : atan2 0 1 = 0 := by
  simp [atan2, Real.arctan_zero]

lemma atan2_nonneg {y x : ℝ} (hy : 0 ≤ y) (hx : 0 ≤ x) : 0 ≤ atan2 y x := by
  unfold atan2
  rcases lt_or_eq_of_le hx with hx' | hx'
  · rw [if_pos hx']
    have h0 : (0 : ℝ) ≤ y / x := div_nonneg hy (le_of_lt hx')
    have h := Real.arctan_strictMono.monotone h0
    rwa [Real.arctan_zero] at h
  · subst hx'
    rw [if_neg (lt_irrefl 0), if_neg (lt_irrefl 0)]
    rcases lt_or_eq_of_le hy with hy' | hy'
    · rw [if_pos hy']
      positivity
    · subst hy'
      rw [if_neg (lt_irrefl 0), if_neg (lt_irrefl 0)]

lemma hav_self (lat lon : ℝ) : hav lat lon lat lon = 0 := by
  simp [hav]

lemma hav_symm (lat1 lon1 lat2 lon2 : ℝ) :
    hav lat1 lon1 lat2 lon2 = hav lat2 lon2 lat1 lon1 := by
  unfold hav
  have hsin : ∀ u v : ℝ,
      Real.sin ((u - v) * Real.pi / 180 / 2) = -Real.sin ((v - u) * Real.pi / 180 / 2) := by
    intro u v
    have h : (u - v) * Real.pi / 180 / 2 = -((v - u) * Real.pi / 180 / 2) := by ring
    rw [h, Real.sin_neg]
  rw [hsin lat1 lat2, hsin lon1 lon2]
  ring

lemma calculateDistance_self (lat lon : ℝ) : calculateDistance lat lon lat lon = 0 := by
  rw [calculateDistance, hav_self]
  simp [atan2_zero_one]

lemma calculateDistance_nonneg (lat1 lon1 lat2 lon2 : ℝ) :
    0 ≤ calculateDistance lat1 lon1 lat2 lon2 := by
  rw [calculateDistance]
  have h := atan2_nonneg (Real.sqrt_nonneg (hav lat1 lon1 lat2 lon2))
    (Real.sqrt_nonneg (1 - hav lat1 lon1 lat2 lon2))
  nlinarith

lemma calculateDistance_symm (lat1 lon1 lat2 lon2 : ℝ) :
    calculateDistance lat1 lon1 lat2 lon2 = calculateDistance lat2 lon2 lat1 lon1 := by
  rw [calculateDistance, calculateDistance, hav_symm]

/-- A latitude/longitude pair, as in the request body
`{ location: { latitude, longitude } }`. -/
structure Location where
  latitude : ℝ
  longitude : ℝ

/-- A delivery zone as read from `store.settings.shipping.zones`.  Fields that
JavaScript may leave `undefined` are `Option`s.  `estimatedDays` and the zone
id are never read by the resolution code and are omitted. -/
structure Zone where
  name : String
  deliveryType : String
  cost : ℝ
  isActive : Option Bool := some true
  states : Option (List String) := none
  location : Option Location := none
  radius : Option ℝ := none

/-- An element of the handler's `availableZones` array: either the zone object
itself (state-based match) or `{...zone, distance: <rounded>}` (radius-based
match).  The spread of the zone's fields plus the extra `distance` property is
modelled as the pair of the zone and an optional distance. -/
structure MatchedZone where
  zone : Zone
  distance : Option ℝ := none

/-- The payload `{ available, zones, cheapestOption }` of the
validate-delivery response. -/
structure ResolveResult where
  available : Bool
  zones : List MatchedZone
  cheapestOption : Option MatchedZone

/-- JavaScript truthiness of the `state` request field: present and not the
empty string. -/
def truthyStr : Option String → Bool
  | some s => !(s == "")
  | none => false

/-- `zoneState.toLowerCase() === state.toLowerCase()`: case-insensitive
string equality, stated on the character lists (`String.toLower` maps
`Char.toLower` over the characters, so this is equality of the lowercased
strings, phrased so that it evaluates by `rfl`). -/
def lowerEq (a b : String) : Bool := a.data.map Char.toLower == b.data.map Char.toLower

/-- The state-based branch of the matching loop: `zone.states.some(...)` with
case-insensitive comparison; accessing `.some` on an absent `states` throws
(`Except.error ()`). A match pushes the zone itself, with no distance. -/
def matchStateZone (s : String) (zone : Zone) : Except Unit (Option MatchedZone) :=
  match zone.states with
  | none => .error ()
  | some sts =>
      if sts.any (fun t => lowerEq t s) then .ok (some ⟨zone, none⟩)
      else .ok none

/-- The radius-based branch: reading `zone.location.latitude` on an absent
`location` throws; `distance <= zone.radius` with an absent `radius` is the
JavaScript comparison with `undefined`, which is false. A match pushes
`{...zone, distance: Math.round(distance * 100) / 100}`. -/
noncomputable def matchRadiusZone (loc : Location) (zone : Zone) :
    Except Unit (Option MatchedZone) :=
  match zone.location with
  | none => .error ()
  | some zloc =>
      match zone.radius with
      | some r =>
          if calculateDistance loc.latitude loc.longitude zloc.latitude zloc.longitude ≤ r then
            .ok (some ⟨zone, some (round2 (calculateDistance loc.latitude loc.longitude
              zloc.latitude zloc.longitude))⟩)
          else .ok none
      | none => .ok none

/-- One iteration of the `for (const zone of activeZones)` loop body: the
guarded `if (zone.deliveryType === 'state-based' && state) ... else if
(zone.deliveryType === 'radius-based' && location) ...` dispatch.  When the
first guard holds, `state?` is `some s` with `s ≠ ""`, so `getD ""` returns
exactly the query state. -/
noncomputable def matchZone (loc? : Option Location) (state? : Option String) (zone : Zone) :
    Except Unit (Option MatchedZone) :=
  if zone.deliveryType = "state-based" ∧ truthyStr state? = true then
    matchStateZone (state?.getD "") zone
  else if zone.deliveryType = "radius-based" ∧ loc?.isSome = true then
    match loc? with
    | some loc => matchRadiusZone loc zone
    | none => .ok none
  else .ok none

/-- The whole matching loop: matches collected in zone order; a thrown
`TypeError` aborts the loop (and is caught by the route's `catch`). -/
noncomputable def collectMatches (loc? : Option Location) (state? : Option String) :
    List Zone → Except Unit (List MatchedZone)
  | [] => .ok []
  | z :: zs =>
      match matchZone loc? state? z with
      | .error e => .error e
      | .ok m? =>
          match collectMatches loc? state? zs with
          | .error e => .error e
          | .ok rest => .ok (match m? with | some m => m :: rest | none => rest)

/-- Insert into an already cost-sorted list after every element of smaller or
equal cost. -/
noncomputable def insertByCost (m : MatchedZone) : List MatchedZone → List MatchedZone
  | [] => [m]
  | x :: xs => if x.zone.cost ≤ m.zone.cost then x :: insertByCost m xs else m :: x :: xs

/-- `availableZones.sort((a, b) => a.cost - b.cost)`: ECMA-262 requires
`Array.prototype.sort` to be stable, and a stable ascending sort by cost is
extensionally unique, so it is modelled by stable insertion sort. -/
noncomputable def sortByCost (l : List MatchedZone) : List MatchedZone :=
  l.foldl (fun acc m => insertByCost m acc) []

/-- `const activeZones = zones.filter(zone => zone.isActive !== false)`. -/
def activeZones (zones : List Zone) : List Zone :=
  zones.filter (fun z => decide (z.isActive ≠ some false))

/-- The whole `POST /stores/:id/validate-delivery` resolution, from the
`activeZones` filter (`zone.isActive !== false`) to the response payload
`{ available: availableZones.length > 0, zones: availableZones,
cheapestOption: availableZones[0] || null }`. -/
noncomputable def validateDelivery (zones : List Zone) (loc? : Option Location)
    (state? : Option String) : Except Unit ResolveResult :=
  match collectMatches loc? state? (activeZones zones) with
  | .error e => .error e
  | .ok ms =>
      .ok { available := decide (0 < (sortByCost ms).length),
            zones := sortByCost ms,
            cheapestOption := (sortByCost ms).head? }

/-! ### Properties of the cost sort -/

/-- The sort key relation: ascending by `cost`. -/
def costLE (a b : MatchedZone) : Prop := a.zone.cost ≤ b.zone.cost

lemma insertByCost_perm (m : MatchedZone) (l : List MatchedZone) :
    (insertByCost m l).Perm (m :: l) := by
  induction l with
  | nil => rfl
  | cons x xs ih =>
      rw [insertByCost]
      by_cases h : x.zone.cost ≤ m.zone.cost
      · rw [if_pos h]
        exact ((ih.cons x).trans (List.Perm.swap m x xs)).symm.symm
      · rw [if_neg h]

lemma mem_insertByCost {a m : MatchedZone} {l : List MatchedZone} :
    a ∈ insertByCost m l ↔ a = m ∨ a ∈ l := by
  rw [(insertByCost_perm m l).mem_iff, List.mem_cons]

lemma insertByCost_pairwise {m : MatchedZone} {l : List MatchedZone}
    (h : l.Pairwise costLE) : (insertByCost m l).Pairwise costLE := by
  induction l with
  | nil => simp [insertByCost, List.Pairwise]
  | cons x xs ih =>
      rw [insertByCost]
      rcases List.pairwise_cons.mp h with ⟨hx, hxs⟩
      by_cases hc : x.zone.cost ≤ m.zone.cost
      · rw [if_pos hc]
        refine List.pairwise_cons.mpr ⟨?_, ih hxs⟩
        intro b hb
        rcases mem_insertByCost.mp hb with hb | hb
        · rw [hb]; exact hc
        · exact hx b hb
      · rw [if_neg hc]
        have hmx : costLE m x := le_of_not_le hc
        refine List.pairwise_cons.mpr ⟨?_, h⟩
        intro b hb
        rcases List.mem_cons.mp hb with hb | hb
        · rw [hb]; exact hmx
        · exact le_trans hmx (hx b hb)

lemma insertByCost_filter_cost {m : MatchedZone} {l : List MatchedZone} (c : ℝ)
    (h : l.Pairwise costLE) :
    (insertByCost m l).filter (fun a => decide (a.zone.cost = c)) =
      (if m.zone.cost = c then
        l.filter (fun a => decide (a.zone.cost = c)) ++ [m]
      else l.filter (fun a => decide (a.zone.cost = c))) := by
  induction l with
  | nil =>
      by_cases hm : m.zone.cost = c
      · rw [if_pos hm]; simp [insertByCost, hm]
      · rw [if_neg hm]; simp [insertByCost, hm]
  | cons x xs ih =>
      rcases List.pairwise_cons.mp h with ⟨hx, hxs⟩
      rw [insertByCost]
      by_cases hc : x.zone.cost ≤ m.zone.cost
      · rw [if_pos hc]
        simp only [List.filter_cons, ih hxs]
        by_cases hm : m.zone.cost = c <;> by_cases hxc : x.zone.cost = c <;>
          simp [hm, hxc]
      · rw [if_neg hc]
        have hlt : m.zone.cost < x.zone.cost := lt_of_not_le hc
        by_cases hm : m.zone.cost = c
        · rw [if_pos hm]
          have hnil : (x :: xs).filter (fun a => decide (a.zone.cost = c)) = [] := by
            rw [List.filter_eq_nil_iff]
            intro a ha
            rcases List.mem_cons.mp ha with ha | ha
            · subst ha
              simp only [decide_eq_true_eq]
              intro hac
              exact absurd (hac ▸ hlt) (by rw [hm]; exact lt_irrefl c)
            · have := hx a ha
              simp only [decide_eq_true_eq]
              intro hac
              have : x.zone.cost ≤ c := hac ▸ this
              exact absurd (lt_of_lt_of_le (hm ▸ hlt) this) (lt_irrefl c)
          rw [List.filter_cons, hnil]
          simp [hm]
        · rw [if_neg hm]
          rw [List.filter_cons]
          simp [hm]

lemma foldl_insertByCost_pairwise (l : List MatchedZone) :
    ∀ acc : List MatchedZone, acc.Pairwise costLE →
      (l.foldl (fun a m => insertByCost m a) acc).Pairwise costLE := by
  induction l with
  | nil => intro acc h; exact h
  | cons x xs ih =>
      intro acc h
      exact ih (insertByCost x acc) (insertByCost_pairwise h)

lemma sortByCost_pairwise (l : List MatchedZone) : (sortByCost l).Pairwise costLE :=
  foldl_insertByCost_pairwise l [] (List.Pairwise.nil)

lemma foldl_insertByCost_perm (l : List MatchedZone) :
    ∀ acc : List MatchedZone,
      (l.foldl (fun a m => insertByCost m a) acc).Perm (acc ++ l) := by
  induction l with
  | nil => intro acc; simp
  | cons x xs ih =>
      intro acc
      refine (ih (insertByCost x acc)).trans ?_
      have h1 : (insertByCost x acc ++ xs).Perm ((x :: acc) ++ xs) :=
        (insertByCost_perm x acc).append_right xs
      refine h1.trans ?_
      have h2 : ((x :: acc) ++ xs).Perm (acc ++ (x :: xs)) := by
        simpa using List.perm_middle.symm
      exact h2

lemma sortByCost_perm (l : List MatchedZone) : (sortByCost l).Perm l :=
  foldl_insertByCost_perm l []

lemma foldl_insertByCost_filter_cost (c : ℝ) (l : List MatchedZone) :
    ∀ acc : List MatchedZone, acc.Pairwise costLE →
      (l.foldl (fun a m => insertByCost m a) acc).filter
          (fun a => decide (a.zone.cost = c)) =
        acc.filter (fun a => decide (a.zone.cost = c)) ++
          l.filter (fun a => decide (a.zone.cost = c)) := by
  induction l with
  | nil => intro acc _; simp
  | cons x xs ih =>
      intro acc h
      rw [List.foldl_cons, ih (insertByCost x acc) (insertByCost_pairwise h),
        insertByCost_filter_cost c h, List.filter_cons]
      by_cases hm : x.zone.cost = c
      · rw [if_pos hm]
        simp [hm]
      · rw [if_neg hm]
        simp [hm]

lemma sortByCost_filter_cost (c : ℝ) (l : List MatchedZone) :
    (sortByCost l).filter (fun a => decide (a.zone.cost = c)) =
      l.filter (fun a => decide (a.zone.cost = c)) :=
  foldl_insertByCost_filter_cost c l [] (List.Pairwise.nil)

/-! ### Properties of the matching loop -/

lemma matchZone_ok_some {loc? : Option Location} {state? : Option String} {z : Zone}
    {m : MatchedZone} (h : matchZone loc? state? z = .ok (some m)) : m.zone = z := by
  unfold matchZone matchStateZone matchRadiusZone at h
  repeat' split at h
  all_goals simp_all
  all_goals rw [← h]

lemma collectMatches_drop {loc? : Option Location} {state? : Option String} {z : Zone}
    (h : matchZone loc? state? z = .ok none) :
    ∀ zs₁ zs₂ : List Zone,
      collectMatches loc? state? (zs₁ ++ z :: zs₂) = collectMatches loc? state? (zs₁ ++ zs₂) := by
  intro zs₁
  induction zs₁ with
  | nil =>
      intro zs₂
      rw [List.nil_append, List.nil_append, collectMatches, h]
      rcases hc : collectMatches loc? state? zs₂ with e | rest <;> simp
  | cons w ws ih =>
      intro zs₂
      rw [List.cons_append, List.cons_append, collectMatches, collectMatches, ih zs₂]

lemma collectMatches_error_mem {loc? : Option Location} {state? : Option String} {z : Zone}
    {zs : List Zone} (hz : z ∈ zs) (he : matchZone loc? state? z = .error ()) :
    collectMatches loc? state? zs = .error () := by
  induction zs with
  | nil => exact absurd hz (List.not_mem_nil z)
  | cons w ws ih =>
      rw [collectMatches]
      rcases List.mem_cons.mp hz with hz' | hz'
      · rw [← hz', he]
      · rcases hw : matchZone loc? state? w with e | m?
        · cases e; rfl
        · rw [ih hz']

lemma collectMatches_mem {loc? : Option Location} {state? : Option String}
    {zs : List Zone} {ms : List MatchedZone} {m : MatchedZone}
    (h : collectMatches loc? state? zs = .ok ms) (hm : m ∈ ms) :
    ∃ z ∈ zs, matchZone loc? state? z = .ok (some m) := by
  induction zs generalizing ms with
  | nil =>
      rw [collectMatches] at h
      injection h with h
      rw [← h] at hm
      exact absurd hm (List.not_mem_nil m)
  | cons w ws ih =>
      rw [collectMatches] at h
      rcases hw : matchZone loc? state? w with e | m?
      · rw [hw] at h; exact absurd h (by simp)
      · rw [hw] at h
        rcases hc : collectMatches loc? state? ws with e | rest
        · rw [hc] at h; exact absurd h (by simp)
        · rw [hc] at h
          rcases m? with _ | m0
          · injection h with h
            rw [← h] at hm
            rcases ih hc hm with ⟨z, hz, hmz⟩
            exact ⟨z, List.mem_cons_of_mem w hz, hmz⟩
          · injection h with h
            rw [← h] at hm
            rcases List.mem_cons.mp hm with hm' | hm'
            · exact ⟨w, List.mem_cons_self w ws, by rw [hw, hm']⟩
            · rcases ih hc hm' with ⟨z, hz, hmz⟩
              exact ⟨z, List.mem_cons_of_mem w hz, hmz⟩

lemma validateDelivery_drop {loc? : Option Location} {state? : Option String} {z : Zone}
    (h : z.isActive ≠ some false → matchZone loc? state? z = .ok none)
    (zs₁ zs₂ : List Zone) :
    validateDelivery (zs₁ ++ z :: zs₂) loc? state? =
      validateDelivery (zs₁ ++ zs₂) loc? state? := by
  unfold validateDelivery activeZones
  rw [List.filter_append, List.filter_append, List.filter_cons]
  by_cases ha : z.isActive ≠ some false
  · rw [if_pos (by simpa using ha)]
    have hd := collectMatches_drop (h ha)
      (List.filter (fun z => decide (z.isActive ≠ some false)) zs₁)
      (List.filter (fun z => decide (z.isActive ≠ some false)) zs₂)
    rw [hd]
  · rw [if_neg (by simpa using ha)]

lemma validateDelivery_error {loc? : Option Location} {state? : Option String} {z : Zone}
    {zs : List Zone} (hz : z ∈ zs) (ha : z.isActive ≠ some false)
    (he : matchZone loc? state? z = .error ()) :
    validateDelivery zs loc? state? = .error () := by
  unfold validateDelivery activeZones
  have hmem : z ∈ zs.filter (fun z => decide (z.isActive ≠ some false)) :=
    List.mem_filter.mpr ⟨hz, by simpa using ha⟩
  rw [collectMatches_error_mem hmem he]

lemma validateDelivery_drop_inactive {loc? : Option Location} {state? : Option String}
    {z : Zone} (ha : z.isActive = some false) (zs₁ zs₂ : List Zone) :
    validateDelivery (zs₁ ++ z :: zs₂) loc? state? =
      validateDelivery (zs₁ ++ zs₂) loc? state? := by
  unfold validateDelivery activeZones
  rw [List.filter_append, List.filter_append, List.filter_cons, if_neg (by simp [ha])]

lemma matchZone_no_query {loc? : Option Location} {state? : Option String} {z : Zone}
    (hloc : loc? = none) (hstate : truthyStr state? = false) :
    matchZone loc? state? z = .ok none := by
  unfold matchZone
  rw [if_neg (fun hc => by rw [hstate] at hc; exact Bool.false_ne_true hc.2),
    if_neg (fun hc => by rw [hloc] at hc; exact Bool.false_ne_true hc.2)]

lemma collectMatches_nomatch {loc? : Option Location} {state? : Option String}
    {zs : List Zone} (h : ∀ z ∈ zs, matchZone loc? state? z = .ok none) :
    collectMatches loc? state? zs = .ok [] := by
  induction zs with
  | nil => rfl
  | cons w ws ih =>
      rw [collectMatches, h w (List.mem_cons_self w ws),
        ih (fun z hz => h z (List.mem_cons_of_mem w hz))]

lemma validateDelivery_ok_inv {zs : List Zone} {loc? : Option Location}
    {state? : Option String} {r : ResolveResult}
    (h : validateDelivery zs loc? state? = .ok r) :
    ∃ ms, collectMatches loc? state? (activeZones zs) = .ok ms ∧
      r = ⟨decide (0 < (sortByCost ms).length), sortByCost ms, (sortByCost ms).head?⟩ := by
  unfold validateDelivery at h
  rcases hc : collectMatches loc? state? (activeZones zs) with e | ms
  · rw [hc] at h; exact absurd h (by simp)
  · rw [hc] at h
    injection h with h
    exact ⟨ms, rfl, h.symm⟩

lemma validateDelivery_mem_zones {zs : List Zone} {loc? : Option Location}
    {state? : Option String} {r : ResolveResult} {m : MatchedZone}
    (h : validateDelivery zs loc? state? = .ok r) (hm : m ∈ r.zones) :
    m.zone ∈ zs ∧ m.zone.isActive ≠ some false := by
  rcases validateDelivery_ok_inv h with ⟨ms, hms, hr⟩
  rw [hr] at hm
  have hm' : m ∈ ms := (sortByCost_perm ms).mem_iff.mp hm
  rcases collectMatches_mem hms hm' with ⟨z, hz, hmz⟩
  have hzz := matchZone_ok_some hmz
  rw [hzz]
  exact ⟨(List.mem_filter.mp hz).1, by simpa using (List.mem_filter.mp hz).2⟩

/-! ### Claim theorems -/

/-- C9: for all coordinate pairs, `calculateDistance` is symmetric
(`distanceKm(A,B) = distanceKm(B,A)`), is zero on identical pairs
(`distanceKm(A,A) = 0`), and always returns a non-negative value.  (Proved
for all real inputs, which subsumes the valid latitude/longitude ranges.) -/
theorem distance_symmetric_zero_nonneg (lat1 lon1 lat2 lon2 : ℝ) :
    calculateDistance lat1 lon1 lat2 lon2 = calculateDistance lat2 lon2 lat1 lon1 ∧
    calculateDistance lat1 lon1 lat1 lon1 = 0 ∧
    0 ≤ calculateDistance lat1 lon1 lat2 lon2 :=
  ⟨calculateDistance_symm lat1 lon1 lat2 lon2, calculateDistance_self lat1 lon1,
    calculateDistance_nonneg lat1 lon1 lat2 lon2⟩

/-- C6: a query with neither a location nor a (truthy) state resolves without
error to `{available: false, zones: [], cheapest: null}` for every zone set,
and the empty zone set resolves to the same result for every query. -/
theorem validate_delivery_empty_cases (zones : List Zone) (loc? : Option Location)
    (state? : Option String) :
    (loc? = none → truthyStr state? = false →
      validateDelivery zones loc? state? = .ok ⟨false, [], none⟩) ∧
    validateDelivery [] loc? state? = .ok ⟨false, [], none⟩ := by
  constructor
  · intro hloc hstate
    unfold validateDelivery
    rw [collectMatches_nomatch
      (fun z _ => matchZone_no_query (z := z) hloc hstate)]
    rfl
  · rfl

/-- Witness for C6 at a concrete zone set and the empty query / empty set. -/
theorem validate_delivery_empty_cases_witness :
    validateDelivery [⟨"lagos", "state-based", 100, some true, some ["Lagos"], none, none⟩]
        none none = .ok ⟨false, [], none⟩ ∧
    validateDelivery [] none (some "Rivers") = .ok ⟨false, [], none⟩ :=
  ⟨(validate_delivery_empty_cases
      [⟨"lagos", "state-based", 100, some true, some ["Lagos"], none, none⟩] none none).1
      rfl rfl,
    (validate_delivery_empty_cases [] none (some "Rivers")).2⟩

/-- C10: a zone whose `deliveryType` is neither `state-based` nor
`radius-based` produces no match and no error: it can be deleted from the
zone set without changing the resolution at all. -/
theorem unknown_delivery_type_skipped (z : Zone) (zs₁ zs₂ : List Zone)
    (loc? : Option Location) (state? : Option String)
    (h1 : z.deliveryType ≠ "state-based") (h2 : z.deliveryType ≠ "radius-based") :
    matchZone loc? state? z = .ok none ∧
    validateDelivery (zs₁ ++ z :: zs₂) loc? state? =
      validateDelivery (zs₁ ++ zs₂) loc? state? := by
  have hm : matchZone loc? state? z = .ok none := by
    unfold matchZone
    rw [if_neg (fun hc => h1 hc.1), if_neg (fun hc => h2 hc.1)]
  exact ⟨hm, validateDelivery_drop (fun _ => hm) zs₁ zs₂⟩

/-- Witness for C10 at a concrete unknown-typed zone. -/
theorem unknown_delivery_type_skipped_witness :
    matchZone (some ⟨0, 0⟩) (some "Rivers")
        ⟨"dr", "drone-based", 100, some true, none, none, none⟩ = .ok none ∧
    validateDelivery ([] ++ ⟨"dr", "drone-based", 100, some true, none, none, none⟩ ::
        [⟨"lagos", "state-based", 100, some true, some ["Lagos"], none, none⟩])
        (some ⟨0, 0⟩) (some "Rivers") =
      validateDelivery ([] ++ [⟨"lagos", "state-based", 100, some true, some ["Lagos"], none, none⟩])
        (some ⟨0, 0⟩) (some "Rivers") :=
  unknown_delivery_type_skipped
    ⟨"dr", "drone-based", 100, some true, none, none, none⟩ []
    [⟨"lagos", "state-based", 100, some true, some ["Lagos"], none, none⟩]
    (some ⟨0, 0⟩) (some "Rivers") (by decide) (by decide)

/-- C5: an active state-based zone with states list `sts` and a non-empty
query state `s` matches exactly when some element of `sts` equals `s`
case-insensitively (so `sts = []` never matches), and the match record
carries no distance. -/
theorem state_zone_match_iff (z : Zone) (s : String) (sts : List String)
    (loc? : Option Location) (hdt : z.deliveryType = "state-based")
    (hsts : z.states = some sts) (hact : z.isActive ≠ some false) (hs : s ≠ "") :
    (matchZone loc? (some s) z = .ok (some ⟨z, none⟩) ↔
      ∃ t ∈ sts, lowerEq t s = true) ∧
    ((¬ ∃ t ∈ sts, lowerEq t s = true) → matchZone loc? (some s) z = .ok none) ∧
    (sts = [] → matchZone loc? (some s) z = .ok none) ∧
    (∀ m, matchZone loc? (some s) z = .ok (some m) → m.distance = none) := by
  have htruthy : truthyStr (some s) = true := by
    simp [truthyStr, hs]
  have hkey : (sts.any (fun t => lowerEq t s) = true) ↔
      ∃ t ∈ sts, lowerEq t s = true := by
    simp [List.any_eq_true]
  have hstep : matchZone loc? (some s) z =
      (if sts.any (fun t => lowerEq t s) = true then
        Except.ok (some ⟨z, none⟩) else Except.ok none) := by
    unfold matchZone matchStateZone
    rw [if_pos ⟨hdt, htruthy⟩]
    simp only [Option.getD_some, hsts]
  by_cases hA : sts.any (fun t => lowerEq t s) = true
  · rw [if_pos hA] at hstep
    refine ⟨by simp [hstep, hkey.mp hA], fun hno => absurd (hkey.mp hA) hno, ?_, ?_⟩
    · intro hnil
      rw [hnil] at hA
      exact absurd hA (by simp)
    · intro m hm
      rw [hstep] at hm
      injection hm with hm
      injection hm with hm
      rw [← hm]
  · rw [if_neg hA] at hstep
    have hnex : ¬ ∃ t ∈ sts, lowerEq t s = true := fun he => hA (hkey.mpr he)
    refine ⟨?_, fun _ => hstep, fun _ => hstep, ?_⟩
    · rw [hstep]
      exact iff_of_false (by simp) hnex
    · intro m hm
      rw [hstep] at hm
      exact absurd hm (by simp)

/-- Witness for C5: the spec's example zone `states=["Rivers"]` against query
state `"rivers"`. -/
theorem state_zone_match_iff_witness :
    (matchZone none (some "rivers")
        ⟨"riv", "state-based", 1500, some true, some ["Rivers"], none, none⟩ =
        .ok (some ⟨⟨"riv", "state-based", 1500, some true, some ["Rivers"], none, none⟩, none⟩) ↔
      ∃ t ∈ ["Rivers"], lowerEq t "rivers" = true) ∧
    ((¬ ∃ t ∈ ["Rivers"], lowerEq t "rivers" = true) →
      matchZone none (some "rivers")
        ⟨"riv", "state-based", 1500, some true, some ["Rivers"], none, none⟩ = .ok none) ∧
    ((["Rivers"] : List String) = [] →
      matchZone none (some "rivers")
        ⟨"riv", "state-based", 1500, some true, some ["Rivers"], none, none⟩ = .ok none) ∧
    (∀ m, matchZone none (some "rivers")
        ⟨"riv", "state-based", 1500, some true, some ["Rivers"], none, none⟩ = .ok (some m) →
      m.distance = none) :=
  state_zone_match_iff
    ⟨"riv", "state-based", 1500, some true, some ["Rivers"], none, none⟩
    "rivers" ["Rivers"] none rfl rfl (by simp) (by decide)

/-- C3: an active radius-based zone with centre `zloc` and positive radius
`r`, queried with a location, matches exactly when the Haversine distance `d`
satisfies `d ≤ r` (boundary inclusive), the match carrying the rounded
distance; beyond the radius it yields no match. -/
theorem radius_zone_match_iff (z : Zone) (zloc : Location) (r : ℝ) (loc : Location)
    (state? : Option String) (hdt : z.deliveryType = "radius-based")
    (hzl : z.location = some zloc) (hr : z.radius = some r) (hrpos : 0 < r)
    (hact : z.isActive ≠ some false) :
    (matchZone (some loc) state? z =
        .ok (some ⟨z, some (round2 (calculateDistance loc.latitude loc.longitude
          zloc.latitude zloc.longitude))⟩) ↔
      calculateDistance loc.latitude loc.longitude zloc.latitude zloc.longitude ≤ r) ∧
    (¬ calculateDistance loc.latitude loc.longitude zloc.latitude zloc.longitude ≤ r →
      matchZone (some loc) state? z = .ok none) := by
  have hne : ¬ (z.deliveryType = "state-based" ∧ truthyStr state? = true) := by
    rintro ⟨h1, -⟩
    rw [hdt] at h1
    exact absurd h1 (by decide)
  have hstep : matchZone (some loc) state? z =
      (if calculateDistance loc.latitude loc.longitude zloc.latitude zloc.longitude ≤ r then
        Except.ok (some ⟨z, some (round2 (calculateDistance loc.latitude loc.longitude
          zloc.latitude zloc.longitude))⟩)
      else Except.ok none) := by
    unfold matchZone matchRadiusZone
    rw [if_neg hne, if_pos ⟨hdt, rfl⟩]
    simp only [hzl, hr]
  by_cases hd : calculateDistance loc.latitude loc.longitude zloc.latitude zloc.longitude ≤ r
  · rw [if_pos hd] at hstep
    exact ⟨iff_of_true hstep hd, fun hc => absurd hd hc⟩
  · rw [if_neg hd] at hstep
    refine ⟨?_, fun _ => hstep⟩
    rw [hstep]
    exact iff_of_false (by simp) hd

/-- Witness for C3: a radius-5 zone centred at the query location; the
distance is 0 so the zone is at (inside) the boundary. -/
theorem radius_zone_match_iff_witness :
    (matchZone (some ⟨4, 7⟩) none
        ⟨"r5", "radius-based", 1000, some true, none, some ⟨4, 7⟩, some 5⟩ =
        .ok (some ⟨⟨"r5", "radius-based", 1000, some true, none, some ⟨4, 7⟩, some 5⟩,
          some (round2 (calculateDistance (4 : ℝ) 7 4 7))⟩) ↔
      calculateDistance (4 : ℝ) 7 4 7 ≤ 5) ∧
    (¬ calculateDistance (4 : ℝ) 7 4 7 ≤ 5 →
      matchZone (some ⟨4, 7⟩) none
        ⟨"r5", "radius-based", 1000, some true, none, some ⟨4, 7⟩, some 5⟩ = .ok none) :=
  radius_zone_match_iff
    ⟨"r5", "radius-based", 1000, some true, none, some ⟨4, 7⟩, some 5⟩
    ⟨4, 7⟩ 5 ⟨4, 7⟩ none rfl rfl rfl (by norm_num) (by simp)

/-- C7: a zone with `isActive = false` is removed by the `activeZones` filter
before any dispatch, so it never contributes to the zones list or the
cheapest option and can be deleted from the set without changing the
resolution; zones with `isActive` absent or `true` pass the filter. -/
theorem inactive_zone_excluded :
    (∀ (zs : List Zone) (z : Zone),
      z ∈ activeZones zs ↔ z ∈ zs ∧ z.isActive ≠ some false) ∧
    (∀ (zs : List Zone) (loc? : Option Location) (state? : Option String)
        (r : ResolveResult), validateDelivery zs loc? state? = .ok r →
      ∀ m ∈ r.zones, m.zone ∈ zs ∧ m.zone.isActive ≠ some false) ∧
    (∀ (zs : List Zone) (loc? : Option Location) (state? : Option String)
        (r : ResolveResult) (m : MatchedZone), validateDelivery zs loc? state? = .ok r →
      r.cheapestOption = some m → m ∈ r.zones ∧ m.zone.isActive ≠ some false) ∧
    (∀ (z : Zone) (zs₁ zs₂ : List Zone) (loc? : Option Location) (state? : Option String),
      z.isActive = some false →
      validateDelivery (zs₁ ++ z :: zs₂) loc? state? =
        validateDelivery (zs₁ ++ zs₂) loc? state?) := by
  refine ⟨?_, ?_, ?_, ?_⟩
  · intro zs z
    unfold activeZones
    rw [List.mem_filter]
    simp
  · intro zs loc? state? r h m hm
    exact validateDelivery_mem_zones h hm
  · intro zs loc? state? r m h hc
    rcases validateDelivery_ok_inv h with ⟨ms, hms, hr⟩
    rw [hr] at hc ⊢
    have hmem : m ∈ sortByCost ms := by
      have := List.mem_of_mem_head? (l := sortByCost ms) (a := m)
      exact this (by rw [Option.mem_def]; exact hc)
    refine ⟨hmem, ?_⟩
    exact (validateDelivery_mem_zones h (by rw [hr]; exact hmem)).2
  · intro z zs₁ zs₂ loc? state? ha
    exact validateDelivery_drop_inactive ha zs₁ zs₂

/-- Witness for C7: an inactive radius-based zone centred at the query
location (it would match geographically) is excluded and removable. -/
theorem inactive_zone_excluded_witness :
    (⟨"i", "radius-based", 100, some false, none, some ⟨4, 7⟩, some 50⟩ ∈
        activeZones [⟨"i", "radius-based", 100, some false, none, some ⟨4, 7⟩, some 50⟩] ↔
      (⟨"i", "radius-based", 100, some false, none, some ⟨4, 7⟩, some 50⟩ : Zone) ∈
          [⟨"i", "radius-based", 100, some false, none, some ⟨4, 7⟩, some 50⟩] ∧
        (⟨"i", "radius-based", 100, some false, none, some ⟨4, 7⟩, some 50⟩ : Zone).isActive ≠
          some false) ∧
    validateDelivery
        ([] ++ ⟨"i", "radius-based", 100, some false, none, some ⟨4, 7⟩, some 50⟩ :: [])
        (some ⟨4, 7⟩) none =
      validateDelivery ([] ++ []) (some ⟨4, 7⟩) none :=
  ⟨inactive_zone_excluded.1
      [⟨"i", "radius-based", 100, some false, none, some ⟨4, 7⟩, some 50⟩]
      ⟨"i", "radius-based", 100, some false, none, some ⟨4, 7⟩, some 50⟩,
    inactive_zone_excluded.2.2.2
      ⟨"i", "radius-based", 100, some false, none, some ⟨4, 7⟩, some 50⟩ [] []
      (some ⟨4, 7⟩) none rfl⟩

/-- C1: whenever resolution succeeds with matched list `ms` (the matches in
original zone order), the returned zones list is sorted ascending by cost, is
a permutation of `ms` whose equal-cost sublists are preserved in order
(stability), `cheapestOption` is its first element (`none` when empty), and
`available` holds exactly when some zone matched. -/
theorem resolution_sorted_stable_cheapest (zs : List Zone) (loc? : Option Location)
    (state? : Option String) (r : ResolveResult) (ms : List MatchedZone)
    (hok : validateDelivery zs loc? state? = .ok r)
    (hms : collectMatches loc? state? (activeZones zs) = .ok ms) :
    r.zones.Pairwise costLE ∧
    r.zones.Perm ms ∧
    (∀ c : ℝ, r.zones.filter (fun a => decide (a.zone.cost = c)) =
      ms.filter (fun a => decide (a.zone.cost = c))) ∧
    r.cheapestOption = r.zones.head? ∧
    (r.available = true ↔ ms ≠ []) := by
  rcases validateDelivery_ok_inv hok with ⟨ms', hms', hr⟩
  rw [hms] at hms'
  injection hms' with hms'
  subst hms'
  rw [hr]
  refine ⟨sortByCost_pairwise ms, sortByCost_perm ms,
    fun c => sortByCost_filter_cost c ms, rfl, ?_⟩
  rw [decide_eq_true_iff, (sortByCost_perm ms).length_eq, List.length_pos]

/-- The three state-based demo zones of the spec's sorting example, costs
2000 / 1000 / 1500, all matching state `"Rivers"`. -/
def demoZoneA : Zone := ⟨"a", "state-based", 2000, some true, some ["Rivers"], none, none⟩

def demoZoneB : Zone := ⟨"b", "state-based", 1000, some true, some ["Rivers"], none, none⟩

def demoZoneC : Zone := ⟨"c", "state-based", 1500, some true, some ["Rivers"], none, none⟩

/-- Witness for C1: resolving the three demo zones (costs [2000, 1000, 1500],
all matching) sorts them as [1000, 1500, 2000] with the 1000-cost zone
cheapest. -/
theorem resolution_sorted_stable_cheapest_witness :
    ([⟨demoZoneB, none⟩, ⟨demoZoneC, none⟩, ⟨demoZoneA, none⟩] : List MatchedZone).Pairwise
        costLE ∧
    ([⟨demoZoneB, none⟩, ⟨demoZoneC, none⟩, ⟨demoZoneA, none⟩] : List MatchedZone).Perm
      [⟨demoZoneA, none⟩, ⟨demoZoneB, none⟩, ⟨demoZoneC, none⟩] ∧
    (∀ c : ℝ,
      ([⟨demoZoneB, none⟩, ⟨demoZoneC, none⟩, ⟨demoZoneA, none⟩] : List MatchedZone).filter
          (fun a => decide (a.zone.cost = c)) =
        ([⟨demoZoneA, none⟩, ⟨demoZoneB, none⟩, ⟨demoZoneC, none⟩] : List MatchedZone).filter
          (fun a => decide (a.zone.cost = c))) ∧
    (some ⟨demoZoneB, none⟩ : Option MatchedZone) =
      ([⟨demoZoneB, none⟩, ⟨demoZoneC, none⟩, ⟨demoZoneA, none⟩] : List MatchedZone).head? ∧
    (true = true ↔
      ([⟨demoZoneA, none⟩, ⟨demoZoneB, none⟩, ⟨demoZoneC, none⟩] : List MatchedZone) ≠ []) := by
  have hms : collectMatches none (some "rivers")
      (activeZones [demoZoneA, demoZoneB, demoZoneC]) =
      .ok [⟨demoZoneA, none⟩, ⟨demoZoneB, none⟩, ⟨demoZoneC, none⟩] := by
    rfl
  have hsort : sortByCost [⟨demoZoneA, none⟩, ⟨demoZoneB, none⟩, ⟨demoZoneC, none⟩] =
      [⟨demoZoneB, none⟩, ⟨demoZoneC, none⟩, ⟨demoZoneA, none⟩] := by
    unfold sortByCost
    rw [List.foldl_cons, List.foldl_cons, List.foldl_cons, List.foldl_nil]
    rw [show insertByCost ⟨demoZoneA, none⟩ [] = [⟨demoZoneA, none⟩] from rfl]
    rw [insertByCost, if_neg (by norm_num [demoZoneA, demoZoneB])]
    rw [insertByCost, if_pos (by norm_num [demoZoneB, demoZoneC])]
    rw [insertByCost, if_neg (by norm_num [demoZoneA, demoZoneC])]
  have hok : validateDelivery [demoZoneA, demoZoneB, demoZoneC] none (some "rivers") =
      .ok ⟨true, [⟨demoZoneB, none⟩, ⟨demoZoneC, none⟩, ⟨demoZoneA, none⟩],
        some ⟨demoZoneB, none⟩⟩ := by
    unfold validateDelivery
    rw [hms]
    simp only [hsort]
    rfl
  exact resolution_sorted_stable_cheapest [demoZoneA, demoZoneB, demoZoneC] none
    (some "rivers")
    ⟨true, [⟨demoZoneB, none⟩, ⟨demoZoneC, none⟩, ⟨demoZoneA, none⟩], some ⟨demoZoneB, none⟩⟩
    [⟨demoZoneA, none⟩, ⟨demoZoneB, none⟩, ⟨demoZoneC, none⟩] hok hms

lemma round2_zero : round2 0 = 0 := by
  unfold round2
  have h : ⌊(0 : ℝ) * 100 + 1 / 2⌋ = 0 := by
    rw [Int.floor_eq_zero_iff]
    constructor <;> norm_num
  rw [h]
  norm_num

lemma matchZone_radius_no_radius {z : Zone} {zloc : Location}
    (hdt : z.deliveryType = "radius-based") (hzl : z.location = some zloc)
    (hr : z.radius = none) (loc? : Option Location) (state? : Option String) :
    matchZone loc? state? z = .ok none := by
  have hne : ¬ (z.deliveryType = "state-based" ∧ truthyStr state? = true) := by
    rintro ⟨h1, -⟩
    rw [hdt] at h1
    exact absurd h1 (by decide)
  unfold matchZone matchRadiusZone
  rcases loc? with _ | loc
  · rw [if_neg hne, if_neg (fun hc => by exact absurd hc.2 (by decide))]
  · rw [if_neg hne, if_pos ⟨hdt, rfl⟩]
    simp only [hzl, hr]

lemma matchZone_empty_states {z : Zone} (hdt : z.deliveryType = "state-based")
    (hsts : z.states = some []) (loc? : Option Location) (state? : Option String) :
    matchZone loc? state? z = .ok none := by
  unfold matchZone matchStateZone
  by_cases ht : truthyStr state? = true
  · rw [if_pos ⟨hdt, ht⟩]
    simp only [hsts]
    rfl
  · rw [if_neg (fun hc => ht hc.2),
      if_neg (fun hc => by rw [hdt] at hc; exact absurd hc.1 (by decide))]

lemma matchZone_missing_location {z : Zone} (hdt : z.deliveryType = "radius-based")
    (hzl : z.location = none) (loc : Location) (state? : Option String) :
    matchZone (some loc) state? z = .error () := by
  have hne : ¬ (z.deliveryType = "state-based" ∧ truthyStr state? = true) := by
    rintro ⟨h1, -⟩
    rw [hdt] at h1
    exact absurd h1 (by decide)
  unfold matchZone matchRadiusZone
  rw [if_neg hne, if_pos ⟨hdt, rfl⟩]
  simp only [hzl]

lemma matchZone_missing_states {z : Zone} (hdt : z.deliveryType = "state-based")
    (hsts : z.states = none) (loc? : Option Location) {state? : Option String}
    (ht : truthyStr state? = true) :
    matchZone loc? state? z = .error () := by
  unfold matchZone matchStateZone
  rw [if_pos ⟨hdt, ht⟩]
  simp only [hsts]

/-- C2 counterexample: a radius-based zone whose `location` is absent makes
the matching loop throw a `TypeError` (`zone.location.latitude`), aborting
resolution of the whole set — the claim says it is skipped and the remaining
zones still evaluated, but the second zone (which would match: it is centred
at the query location) is never reached and the result is the route-level
500, not a successful resolution. -/
theorem malformed_zone_throws_counterexample :
    validateDelivery
        [⟨"bad", "radius-based", 500, some true, none, none, some 10⟩,
         ⟨"good", "radius-based", 700, some true, none, some ⟨0, 0⟩, some 5⟩]
        (some ⟨0, 0⟩) none = .error () ∧
    matchZone (some ⟨0, 0⟩) none
        ⟨"good", "radius-based", 700, some true, none, some ⟨0, 0⟩, some 5⟩ =
      .ok (some ⟨⟨"good", "radius-based", 700, some true, none, some ⟨0, 0⟩, some 5⟩,
        some 0⟩) := by
  constructor
  · rfl
  · unfold matchZone matchRadiusZone
    rw [if_neg (fun hc => by exact absurd hc.1 (by decide)), if_pos (by decide)]
    simp only [calculateDistance_self, round2_zero]
    norm_num

/-- C2 amended: a radius-based zone with a `location` but no `radius`, and a
state-based zone with an empty `states` list, are skipped without error and
removable; but a radius-based zone with no `location` (when the query has a
location), and a state-based zone with no `states` array (when the query has
a non-empty state), throw a `TypeError` that aborts resolution of the whole
set (surfaced as the route's catch-all 500). -/
theorem malformed_zone_handling (z : Zone) (zs₁ zs₂ : List Zone)
    (loc? : Option Location) (state? : Option String) :
    (z.deliveryType = "radius-based" → z.radius = none →
      (∀ zloc, z.location = some zloc →
        validateDelivery (zs₁ ++ z :: zs₂) loc? state? =
          validateDelivery (zs₁ ++ zs₂) loc? state?)) ∧
    (z.deliveryType = "state-based" → z.states = some [] →
      validateDelivery (zs₁ ++ z :: zs₂) loc? state? =
        validateDelivery (zs₁ ++ zs₂) loc? state?) ∧
    (z.deliveryType = "radius-based" → z.location = none → z.isActive ≠ some false →
      ∀ loc : Location,
        validateDelivery (zs₁ ++ z :: zs₂) (some loc) state? = .error ()) ∧
    (z.deliveryType = "state-based" → z.states = none → z.isActive ≠ some false →
      truthyStr state? = true →
      validateDelivery (zs₁ ++ z :: zs₂) loc? state? = .error ()) := by
  refine ⟨?_, ?_, ?_, ?_⟩
  · intro hdt hr zloc hzl
    exact validateDelivery_drop
      (fun _ => matchZone_radius_no_radius hdt hzl hr loc? state?) zs₁ zs₂
  · intro hdt hsts
    exact validateDelivery_drop
      (fun _ => matchZone_empty_states hdt hsts loc? state?) zs₁ zs₂
  · intro hdt hzl hact loc
    exact validateDelivery_error
      (List.mem_append_right zs₁ (List.mem_cons_self z zs₂)) hact
      (matchZone_missing_location hdt hzl loc state?)
  · intro hdt hsts hact ht
    exact validateDelivery_error
      (List.mem_append_right zs₁ (List.mem_cons_self z zs₂)) hact
      (matchZone_missing_states hdt hsts loc? ht)

/-- Witness for the amended C2 at concrete malformed zones. -/
theorem malformed_zone_handling_witness :
    validateDelivery ([] ++ ⟨"nr", "radius-based", 500, some true, none, some ⟨1, 1⟩, none⟩ ::
        []) (some ⟨1, 1⟩) none =
      validateDelivery ([] ++ []) (some ⟨1, 1⟩) none ∧
    validateDelivery ([] ++ ⟨"es", "state-based", 500, some true, some [], none, none⟩ ::
        []) none (some "Rivers") =
      validateDelivery ([] ++ []) none (some "Rivers") ∧
    validateDelivery ([] ++ ⟨"nl", "radius-based", 500, some true, none, none, some 10⟩ ::
        []) (some ⟨1, 1⟩) none = .error () ∧
    validateDelivery ([] ++ ⟨"ns", "state-based", 500, some true, none, none, none⟩ ::
        []) none (some "Rivers") = .error () :=
  ⟨(malformed_zone_handling ⟨"nr", "radius-based", 500, some true, none, some ⟨1, 1⟩, none⟩
      [] [] (some ⟨1, 1⟩) none).1 rfl rfl ⟨1, 1⟩ rfl,
   (malformed_zone_handling ⟨"es", "state-based", 500, some true, some [], none, none⟩
      [] [] none (some "Rivers")).2.1 rfl rfl,
   (malformed_zone_handling ⟨"nl", "radius-based", 500, some true, none, none, some 10⟩
      [] [] (some ⟨1, 1⟩) none).2.2.1 rfl rfl (by simp) ⟨1, 1⟩,
   (malformed_zone_handling ⟨"ns", "state-based", 500, some true, none, none, none⟩
      [] [] none (some "Rivers")).2.2.2 rfl rfl (by simp) rfl⟩

/-- C4 counterexample: an active radius-based zone with `radius = 0`, queried
exactly at its centre, has distance 0 and `0 <= 0` holds, so it matches and
appears in the resolution result (as the cheapest option) — contradicting
"never matches and never appears". -/
theorem zero_radius_zone_matches_counterexample :
    validateDelivery [⟨"z0", "radius-based", 300, some true, none, some ⟨0, 0⟩, some 0⟩]
        (some ⟨0, 0⟩) none =
      .ok ⟨true,
        [⟨⟨"z0", "radius-based", 300, some true, none, some ⟨0, 0⟩, some 0⟩, some 0⟩],
        some ⟨⟨"z0", "radius-based", 300, some true, none, some ⟨0, 0⟩, some 0⟩, some 0⟩⟩ := by
  have hm : matchZone (some ⟨0, 0⟩) none
      ⟨"z0", "radius-based", 300, some true, none, some ⟨0, 0⟩, some 0⟩ =
      .ok (some ⟨⟨"z0", "radius-based", 300, some true, none, some ⟨0, 0⟩, some 0⟩,
        some 0⟩) := by
    unfold matchZone matchRadiusZone
    rw [if_neg (fun hc => by exact absurd hc.1 (by decide)), if_pos (by decide)]
    simp only [calculateDistance_self, round2_zero]
    norm_num
  unfold validateDelivery
  rw [show activeZones [⟨"z0", "radius-based", 300, some true, none, some ⟨0, 0⟩, some 0⟩] =
    [⟨"z0", "radius-based", 300, some true, none, some ⟨0, 0⟩, some 0⟩] from rfl]
  rw [collectMatches, hm]
  rfl

/-- C4 amended: a radius-based zone (with a location) whose radius is
strictly negative never matches and is removable from the set; but a zone
with radius exactly 0 matches precisely the queries whose location is at
Haversine distance 0 from the centre — e.g. the centre itself — and then
appears in the result. -/
theorem radius_nonpositive_amended (z : Zone) (zloc : Location) (r : ℝ)
    (hdt : z.deliveryType = "radius-based") (hzl : z.location = some zloc)
    (hr : z.radius = some r) :
    (r < 0 → ∀ (loc? : Option Location) (state? : Option String),
      matchZone loc? state? z = .ok none ∧
      ∀ zs₁ zs₂, validateDelivery (zs₁ ++ z :: zs₂) loc? state? =
        validateDelivery (zs₁ ++ zs₂) loc? state?) ∧
    (r = 0 → ∀ (loc : Location) (state? : Option String),
      ((∃ m, matchZone (some loc) state? z = .ok (some m)) ↔
        calculateDistance loc.latitude loc.longitude zloc.latitude zloc.longitude = 0)) := by
  constructor
  · intro hneg loc? state?
    have hm : matchZone loc? state? z = .ok none := by
      have hne : ¬ (z.deliveryType = "state-based" ∧ truthyStr state? = true) := by
        rintro ⟨h1, -⟩
        rw [hdt] at h1
        exact absurd h1 (by decide)
      unfold matchZone matchRadiusZone
      rcases loc? with _ | loc
      · rw [if_neg hne, if_neg (fun hc => by exact absurd hc.2 (by decide))]
      · rw [if_neg hne, if_pos ⟨hdt, rfl⟩]
        simp only [hzl, hr]
        rw [if_neg (fun hd => absurd (lt_of_le_of_lt hd hneg)
          (not_lt.mpr (calculateDistance_nonneg loc.latitude loc.longitude
            zloc.latitude zloc.longitude)))]
    exact ⟨hm, fun zs₁ zs₂ => validateDelivery_drop (fun _ => hm) zs₁ zs₂⟩
  · intro hzero loc state?
    have hne : ¬ (z.deliveryType = "state-based" ∧ truthyStr state? = true) := by
      rintro ⟨h1, -⟩
      rw [hdt] at h1
      exact absurd h1 (by decide)
    have hstep : matchZone (some loc) state? z =
        (if calculateDistance loc.latitude loc.longitude zloc.latitude zloc.longitude ≤ r then
          Except.ok (some ⟨z, some (round2 (calculateDistance loc.latitude loc.longitude
            zloc.latitude zloc.longitude))⟩)
        else Except.ok none) := by
      unfold matchZone matchRadiusZone
      rw [if_neg hne, if_pos ⟨hdt, rfl⟩]
      simp only [hzl, hr]
    subst hzero
    by_cases hd : calculateDistance loc.latitude loc.longitude zloc.latitude zloc.longitude ≤ 0
    · rw [if_pos hd] at hstep
      have hd0 : calculateDistance loc.latitude loc.longitude zloc.latitude zloc.longitude = 0 :=
        le_antisymm hd (calculateDistance_nonneg _ _ _ _)
      exact iff_of_true ⟨_, hstep⟩ hd0
    · rw [if_neg hd] at hstep
      refine iff_of_false ?_ (fun h0 => hd (le_of_eq h0))
      rintro ⟨m, hmm⟩
      rw [hstep] at hmm
      exact absurd hmm (by simp)

/-- Witness for the amended C4: a radius `-1` zone never matches (and is
removable); a radius `0` zone queried at its centre matches exactly because
the distance is 0. -/
theorem radius_nonpositive_amended_witness :
    (matchZone (some ⟨2, 3⟩) none
        ⟨"neg", "radius-based", 300, some true, none, some ⟨2, 3⟩, some (-1)⟩ = .ok none ∧
      ∀ zs₁ zs₂, validateDelivery
          (zs₁ ++ ⟨"neg", "radius-based", 300, some true, none, some ⟨2, 3⟩, some (-1)⟩ :: zs₂)
          (some ⟨2, 3⟩) none =
        validateDelivery (zs₁ ++ zs₂) (some ⟨2, 3⟩) none) ∧
    ((∃ m, matchZone (some ⟨2, 3⟩) none
        ⟨"zer", "radius-based", 300, some true, none, some ⟨2, 3⟩, some 0⟩ = .ok (some m)) ↔
      calculateDistance (2 : ℝ) 3 2 3 = 0) :=
  ⟨(radius_nonpositive_amended
      ⟨"neg", "radius-based", 300, some true, none, some ⟨2, 3⟩, some (-1)⟩ ⟨2, 3⟩ (-1)
      rfl rfl rfl).1 (by norm_num) (some ⟨2, 3⟩) none,
   (radius_nonpositive_amended
      ⟨"zer", "radius-based", 300, some true, none, some ⟨2, 3⟩, some 0⟩ ⟨2, 3⟩ 0
      rfl rfl rfl).2 rfl ⟨2, 3⟩ none⟩

/-! ### GET /products/nearby distance annotation (`src/routes/products.js`) -/

/-- A seller from `nearbySellers` as read by the annotation step: its id and
the optional GeoJSON array `address.coordinates.coordinates`, stored as
`[longitude, latitude]` (so `.1` is the longitude, `.2` the latitude). -/
structure SellerRec where
  sid : String
  coordinates : Option (ℝ × ℝ) := none

/-- A product as read by the annotation step: its id and its seller's id. -/
structure ProductRec where
  pid : String
  seller : String

/-- One element of `productsWithDistance`: `{...product.toObject(), distance}`. -/
structure ProductWithDistance where
  product : ProductRec
  distance : Option ℝ

/-- One step of the `products.map(...)` distance annotation in
`GET /products/nearby`: look up the product's seller, compute the Haversine
distance to the buyer when coordinates exist (note the `[1]`/`[0]` axis
swap), then `distance: distance ? Math.round(distance * 100) / 100 : null`.
JavaScript number truthiness makes `0` falsy, so a distance of exactly 0
takes the `null` branch. -/
noncomputable def attachDistance (lat lon : ℝ) (sellers : List SellerRec)
    (p : ProductRec) : ProductWithDistance :=
  match sellers.find? (fun s => s.sid == p.seller) with
  | some s =>
      match s.coordinates with
      | some c =>
          if calculateDistance lat lon c.2 c.1 = 0 then ⟨p, none⟩
          else ⟨p, some (round2 (calculateDistance lat lon c.2 c.1))⟩
      | none => ⟨p, none⟩
  | none => ⟨p, none⟩

/-- The whole `productsWithDistance` map: one annotated record per product,
in the original (rating/createdAt-sorted) order. -/
noncomputable def productsWithDistance (lat lon : ℝ) (sellers : List SellerRec)
    (products : List ProductRec) : List ProductWithDistance :=
  products.map (attachDistance lat lon sellers)

/-- C8 (code bug): a product whose seller's stored coordinates coincide with
the buyer's location has Haversine distance exactly 0, and the truthiness
check `distance ? Math.round(distance * 100) / 100 : null` treats the number
0 as falsy — so the code attaches `distance: null` where the specified
behaviour is to attach the rounded distance `0`. -/
theorem nearby_zero_distance_null :
    productsWithDistance 4.8156 7.0134 [⟨"s1", some (7.0134, 4.8156)⟩] [⟨"p1", "s1"⟩] =
      [⟨⟨"p1", "s1"⟩, none⟩] := by
  unfold productsWithDistance attachDistance
  simp [calculateDistance_self]

end Amify
